import Mathlib

/-!
Shallow embedding of the session state machine and version-history manager of
`src/frontend/src/pages/VideoEditor.jsx` (component `MobileVideoEditor`), together
with the pieces of `SongsSheet.jsx` that decide when a song-mix request is
dispatched.  React `useState` fields become fields of an explicit record
`EditorState`; each event handler becomes a function from state (plus the
outcome of any remote call it awaits) to state.  Object-URL creation
(`URL.createObjectURL`) is modelled by a fresh-name counter, and
`URL.revokeObjectURL` by recording the revoked URL in `revokedUrls`.
-/

namespace Karigaar

/-- Models the JavaScript `a || b` fallback on an optional string field:
`undefined`/missing and the empty string are both falsy. -/
def jsOr (o : Option String) (d : String) : String :=
  match o with
  | some s => if s = "" then d else s
  | none => d

/-- Char-list substring search used to model `String.prototype.includes`. -/
def charListHas (pat : List Char) : List Char → Bool
  | [] => pat.isEmpty
  | c :: rest => pat.isPrefixOf (c :: rest) || charListHas pat rest

/-- Models `s.includes(pat)` from JavaScript. -/
def strIncludes (s pat : String) : Bool :=
  charListHas pat.data s.data

/-- Models `s.toLowerCase()` (ASCII case folding, as all matched keywords are ASCII). -/
def strToLower (s : String) : String :=
  String.mk (s.data.map Char.toLower)

/-- Models `s.trim()`: strip whitespace from both ends. -/
def trimChars (s : String) : String :=
  String.mk (((s.data.dropWhile Char.isWhitespace).reverse.dropWhile Char.isWhitespace).reverse)

/-- Models `URL.createObjectURL`: the `n`-th created object URL.  Freshness is
obtained from a counter carried in the state. -/
def mkObjectURL (n : Nat) : String :=
  "blob:" ++ toString n

inductive Role where
  | user
  | ai
deriving DecidableEq

/-- Transcript entry: `{ role: "user"|"ai", content: string }`. -/
structure Message where
  role : Role
  content : String
deriving DecidableEq

/-- History entry `{ blob, url }`: the video artifact (opaque, identified by a
natural number) and its transient object URL. -/
structure HistoryEntry where
  blob : Nat
  url : String
deriving DecidableEq

/-- `conversationState`: `"upload_video" | "get_prompt" | "review"`. -/
inductive Phase where
  | upload_video
  | get_prompt
  | review
deriving DecidableEq

/-- A trending-song record as in `HARDCODED_TRENDING`. -/
structure Song where
  id : String
  title : String
  artist : String
  duration : Nat
  public_url : String
deriving DecidableEq

/-- The `useState` fields of `MobileVideoEditor` that the session logic reads or
writes, plus `nextUrlId` (fresh-URL counter) and `revokedUrls` (record of
`URL.revokeObjectURL` calls) for the resource-lifecycle model. -/
structure EditorState where
  messages : List Message
  conversationState : Phase
  history : List HistoryEntry
  promptHistory : List String
  uploading : Bool
  addingSong : Bool
  addingSongTitle : Option String
  error : Option String
  sheetOpen : Bool
  trendingOpen : Bool
  nextUrlId : Nat
  revokedUrls : List String
deriving DecidableEq

/-- `addUserMessage`: appends a user message unless the text is falsy (empty). -/
def addUserMessage (msgs : List Message) (text : String) : List Message :=
  if text = "" then msgs
  else msgs ++ [⟨Role.user, text⟩]

/-- Transcript effect of `addAIMessage`: appends an ai message unless the text is
empty or the immediately preceding message is an ai message with the same
trimmed content (dedup-on-repeat). -/
def addAIMessageList (msgs : List Message) (text : String) : List Message :=
  if text = "" then msgs
  else
    match msgs.getLast? with
    | some last =>
        if last.role = Role.ai ∧ trimChars last.content = trimChars text then msgs
        else msgs ++ [⟨Role.ai, text⟩]
    | none => msgs ++ [⟨Role.ai, text⟩]

/-- Resolution of the `fetch("/api/edit")` call awaited by `submitEdit`:
a successful binary body, a non-ok status whose JSON body may carry an `error`
field, or a thrown exception (network failure, malformed body, ...). -/
inductive EditOutcome where
  | ok (blob : Nat)
  | httpError (errField : Option String)
  | exn (msg : String)
deriving DecidableEq

/-- Resolution of the `fetch("/api/add_music")` call awaited by
`addSongToCurrentVideo`.  On a non-ok status the handler reads the JSON `error`
field, defaulting to an empty object when the body fails to parse, and keeps
`res.status` for the fallback message. -/
inductive MixOutcome where
  | ok (blob : Nat)
  | httpError (errField : Option String) (status : Nat)
  | exn (msg : String)
deriving DecidableEq

/-- Cumulative instruction built by `submitEdit` (lines 212-215): the new prompt
verbatim when `promptHistory` is empty, otherwise the joined previous edits
followed by the additional edit. -/
def buildFullPrompt (promptHistory : List String) (prompt : String) : String :=
  if promptHistory.length > 0 then
    "Previous edits: " ++ String.intercalate ". " promptHistory ++ ". Additional edit: " ++ prompt
  else prompt

/-- The multipart payload of an `/api/edit` request: current video blob plus the
`user_prompt` field. -/
structure EditRequest where
  videoBlob : Nat
  userPrompt : String
deriving DecidableEq

/-- The multipart payload of an `/api/add_music` request: current video blob plus
the `song_url` field. -/
structure MixRequest where
  videoBlob : Nat
  songUrl : String
deriving DecidableEq

/-- The request `submitEdit` dispatches, mirroring lines 205-219: it dispatches
exactly when a current history entry exists (`if (!current) return;`), carrying
the current blob and the cumulative prompt.  Note the `uploading` flag is not
consulted. -/
def editRequestOf (st : EditorState) (prompt : String) : Option EditRequest :=
  match st.history.getLast? with
  | none => none
  | some current => some ⟨current.blob, buildFullPrompt st.promptHistory prompt⟩

/-- The request `addSongToCurrentVideo` dispatches, mirroring lines 299-317: it
dispatches exactly when a current history entry exists, carrying the current
blob and the song's public URL.  Note the `uploading` flag is not consulted. -/
def mixRequestOf (st : EditorState) (song : Song) : Option MixRequest :=
  match st.history.getLast? with
  | none => none
  | some current => some ⟨current.blob, song.public_url⟩

/-- `submitEdit(prompt)` resolved against outcome `o` of the awaited fetch.
Returns early when no current version exists; otherwise sets `uploading`,
clears `error`, dispatches `editRequestOf`, and on success pushes the response
blob (with a fresh object URL) onto `history`, appends the raw prompt to
`promptHistory`, emits the review prompt, moves to `review` and closes the
sheet; on a non-ok status or exception only `error` is set; `uploading` is
cleared in the `finally` on every path. -/
def submitEdit (st : EditorState) (prompt : String) (o : EditOutcome) : EditorState :=
  match st.history.getLast? with
  | none => st
  | some _ =>
      let st1 : EditorState := { st with uploading := true, error := none }
      match o with
      | EditOutcome.ok blob =>
          let url := mkObjectURL st1.nextUrlId
          { st1 with
            history := st1.history ++ [⟨blob, url⟩],
            promptHistory := st1.promptHistory ++ [prompt],
            messages := addAIMessageList st1.messages
              "Edit complete. Continue editing, restore previous version, or finish?",
            conversationState := Phase.review,
            sheetOpen := false,
            nextUrlId := st1.nextUrlId + 1,
            uploading := false }
      | EditOutcome.httpError errField =>
          { st1 with error := some (jsOr errField "Processing failed"), uploading := false }
      | EditOutcome.exn msg =>
          { st1 with error := some msg, uploading := false }

/-- `handleFileChange`: on a selected file, reset `history` to a single fresh
entry, clear `promptHistory`, emit the upload/prompt messages and move to
`get_prompt`.  No file selected leaves the state unchanged. -/
def handleFileChange (st : EditorState) (file : Option Nat) : EditorState :=
  match file with
  | none => st
  | some blob =>
      let url := mkObjectURL st.nextUrlId
      { st with
        history := [⟨blob, url⟩],
        promptHistory := [],
        messages := addAIMessageList (addUserMessage st.messages "Video uploaded")
          "Describe the edits you would like to make",
        conversationState := Phase.get_prompt,
        nextUrlId := st.nextUrlId + 1 }

/-- `restorePrevious`: when more than one version exists, pop the last history
entry revoking its object URL, pop the last ledger entry, emit the confirmation
and move to `get_prompt`; otherwise do nothing. -/
def restorePrevious (st : EditorState) : EditorState :=
  if st.history.length > 1 then
    { st with
      history := st.history.dropLast,
      revokedUrls := st.revokedUrls ++
        (match st.history.getLast? with
         | some removed => [removed.url]
         | none => []),
      promptHistory := st.promptHistory.dropLast,
      messages := addAIMessageList st.messages
        "Previous version restored. What would you like to edit next?",
      conversationState := Phase.get_prompt }
  else st

/-- The string appended to `promptHistory` by a successful song mix (line 327).
The separator between title and artist is the literal three-character sequence
U+00E2 U+20AC U+201D found in the source bytes. -/
def mixLedgerEntry (song : Song) : String :=
  "Added song: " ++ song.title ++ " â€” " ++ song.artist

/-- `addSongToCurrentVideo(song)` resolved against outcome `o`.  Without a
current version it only sets the "No video loaded" error; otherwise it sets the
adding-song flags and `uploading`, clears `error`, dispatches `mixRequestOf`,
and on success pushes the response blob, appends `mixLedgerEntry song`, emits
the confirmation, closes the trending sheet and moves to `review`; on failure
only `error` is set; the flags are cleared in the `finally` on every path. -/
def addSongToCurrentVideo (st : EditorState) (song : Song) (o : MixOutcome) : EditorState :=
  match st.history.getLast? with
  | none => { st with error := some "No video loaded" }
  | some _ =>
      let st1 : EditorState :=
        { st with
          addingSong := true,
          addingSongTitle := if song.title = "" then none else some song.title,
          uploading := true,
          error := none }
      match o with
      | MixOutcome.ok blob =>
          let url := mkObjectURL st1.nextUrlId
          { st1 with
            history := st1.history ++ [⟨blob, url⟩],
            promptHistory := st1.promptHistory ++ [mixLedgerEntry song],
            messages := addAIMessageList st1.messages
              ("Added \"" ++ song.title ++ "\" to the video. Continue editing or finish."),
            trendingOpen := false,
            conversationState := Phase.review,
            nextUrlId := st1.nextUrlId + 1,
            addingSong := false,
            addingSongTitle := none,
            uploading := false }
      | MixOutcome.httpError errField status =>
          { st1 with
            error := some (jsOr errField ("Add music failed (" ++ toString status ++ ")")),
            addingSong := false,
            addingSongTitle := none,
            uploading := false }
      | MixOutcome.exn msg =>
          { st1 with
            error := some msg,
            addingSong := false,
            addingSongTitle := none,
            uploading := false }

/-- `handleUserInput(transcript)` (lines 177-203), with `o` the outcome used if
the input is forwarded to `submitEdit`.  In `review` the lower-cased transcript
is matched by substring in priority order restore / edit-change-more-yes /
done-no / fallback; the done branch clears history, ledger and transcript (the
`addAIMessage` there is overwritten by the subsequent `setMessages([])`). -/
def handleUserInput (st : EditorState) (transcript : String) (o : EditOutcome) : EditorState :=
  let st0 : EditorState := { st with messages := addUserMessage st.messages transcript }
  match st0.conversationState with
  | Phase.get_prompt => submitEdit st0 transcript o
  | Phase.review =>
      let lower := strToLower transcript
      if strIncludes lower "restore" then restorePrevious st0
      else if strIncludes lower "edit" || strIncludes lower "change" ||
          strIncludes lower "more" || strIncludes lower "yes" then
        { st0 with
          messages := addAIMessageList st0.messages "What additional edits would you like?",
          conversationState := Phase.get_prompt }
      else if strIncludes lower "done" || strIncludes lower "no" then
        { st0 with
          messages := [],
          conversationState := Phase.upload_video,
          history := [],
          promptHistory := [] }
      else
        { st0 with
          messages := addAIMessageList st0.messages
            "Please specify: more edits, restore previous version, or done?" }
  | Phase.upload_video => st0

/-- `handleTextSubmit`: forwards the trimmed input when non-empty, does nothing
otherwise.  No check of the `uploading` flag is made. -/
def handleTextSubmit (st : EditorState) (inputText : String) (o : EditOutcome) : EditorState :=
  if trimChars inputText = "" then st
  else handleUserInput st (trimChars inputText) o

/-- `SongsSheet.handleAddClick` (from `SongsSheet.jsx`): the Add button is
disabled exactly when `addingId` is non-null; when enabled it calls
`addSongToCurrentVideo`, whose dispatched request is `mixRequestOf`.  The
`uploading` prop is not consulted by the button's disabled condition. -/
def songsSheetAddClick (addingId : Option String) (st : EditorState) (song : Song)
    (o : MixOutcome) : EditorState × Option MixRequest :=
  if addingId = none then (addSongToCurrentVideo st song o, mixRequestOf st song)
  else (st, none)

/-- A session event: a file upload, a typed or spoken input (with the resolution
of the edit request it may dispatch), a song-add click (with the resolution of
the mix request), or a press of the restore button exposed by the bottom sheet. -/
inductive Event where
  | upload (blob : Nat)
  | input (transcript : String) (o : EditOutcome)
  | addSong (song : Song) (o : MixOutcome)
  | restoreClick
deriving DecidableEq

/-- One resolved event handler invocation. -/
def step (st : EditorState) (e : Event) : EditorState :=
  match e with
  | Event.upload blob => handleFileChange st (some blob)
  | Event.input s o => handleUserInput st s o
  | Event.addSong song o => addSongToCurrentVideo st song o
  | Event.restoreClick => restorePrevious st

/-- Initial state: `upload_video`, empty stacks, the mount effect's greeting in
the transcript, nothing in flight. -/
def initState : EditorState :=
  { messages := [⟨Role.ai, "Tap to upload a video to begin editing."⟩],
    conversationState := Phase.upload_video,
    history := [],
    promptHistory := [],
    uploading := false,
    addingSong := false,
    addingSongTitle := none,
    error := none,
    sheetOpen := false,
    trendingOpen := false,
    nextUrlId := 0,
    revokedUrls := [] }

/-- The state after a sequence of resolved events from the initial state. -/
def run (es : List Event) : EditorState :=
  es.foldl step initState

/-! ## Text-to-speech and playback adapters -/

/-- The user-visible surface the TTS path can touch: the advisory `error` field
shown alongside the input, and the console log. -/
structure TtsSurface where
  error : Option String
  logs : List String
deriving DecidableEq

/-- The JSON body returned by `POST /api/tts`: `{ audio_base64, mime }`. -/
structure TtsPayload where
  audio_base64 : Option String
  mime : Option String
deriving DecidableEq

/-- Resolution of the `axios.post("/api/tts")` call: its payload, or a failure
whose response body may carry an `error` field (fallback: the exception
message). -/
inductive TtsOutcome where
  | ok (payload : TtsPayload)
  | failure (respErr : Option String) (msg : String)
deriving DecidableEq

/-- Resolution of `audio.play()`: success, or a rejection (autoplay restriction,
decode error). -/
inductive PlaybackOutcome where
  | ok
  | blocked (msg : String)
deriving DecidableEq

/-- `requestServerTTS(text)` (lines 116-125): on success returns the payload; on
failure it logs AND sets the user-facing error to
`"TTS request failed: " + (err?.response?.data?.error || err.message)`. -/
def requestServerTTS (s : TtsSurface) (o : TtsOutcome) : TtsSurface × Option TtsPayload :=
  match o with
  | TtsOutcome.ok payload => (s, some payload)
  | TtsOutcome.failure respErr msg =>
      ({ s with
         logs := s.logs ++ ["TTS request failed"],
         error := some ("TTS request failed: " ++ jsOr respErr msg) }, none)

/-- `playBase64Audio(base64, mime)` (lines 97-114): returns silently on a falsy
payload; a rejected `audio.play()` is only logged (`console.warn`), the error
field is never written. -/
def playBase64Audio (s : TtsSurface) (base64 : Option String) (po : PlaybackOutcome) :
    TtsSurface :=
  match base64 with
  | none => s
  | some b =>
      if b = "" then s
      else
        match po with
        | PlaybackOutcome.ok => s
        | PlaybackOutcome.blocked m =>
            { s with logs := s.logs ++ ["Playback blocked or failed: " ++ m] }

/-! ## Invariant predicates -/

/-- Lock-step shape of the two stacks: either the ledger is exactly one shorter
than the history, or (outside an active session) both are empty. -/
def lockStep (st : EditorState) : Prop :=
  st.promptHistory.length + 1 = st.history.length ∨
    (st.history = [] ∧ st.promptHistory = [])

/-- Lower bounds the phases put on the history length: `review` is only entered
after a successful edit or mix (at least two versions), `get_prompt` only after
an upload or restore (at least one version). -/
def phaseHistoryLB (st : EditorState) : Prop :=
  (st.conversationState = Phase.review → 2 ≤ st.history.length) ∧
  (st.conversationState = Phase.get_prompt → 1 ≤ st.history.length)

/-! ## Concrete states and traces used in the claim checks -/

/-- The first hard-coded trending song. -/
def sahibaSong : Song :=
  { id := "s1", title := "Sahiba", artist := "Aditya Rikhari", duration := 30,
    public_url := "https://drive.google.com/uc?export=download&id=1u5k0HPhka_ytUGLt6eyn3awVM3oYSS6b" }

/-- A session right after one upload, waiting for a prompt. -/
def demoState : EditorState :=
  { initState with
    conversationState := Phase.get_prompt,
    history := [⟨0, "blob:0"⟩],
    nextUrlId := 1 }

/-- A session in `review` with two versions and one ledger entry. -/
def reviewDemoState : EditorState :=
  { initState with
    conversationState := Phase.review,
    history := [⟨0, "blob:0"⟩, ⟨1, "blob:1"⟩],
    promptHistory := ["trim start"],
    nextUrlId := 2 }

/-- A session in `get_prompt` with two prior applied instructions. -/
def ledgerDemoState : EditorState :=
  { initState with
    conversationState := Phase.get_prompt,
    history := [⟨0, "blob:0"⟩],
    promptHistory := ["trim start", "add caption"],
    nextUrlId := 1 }

/-- A snapshot taken while an edit request is in flight: `submitEdit` has set
the `uploading` flag and is awaiting the response. -/
def pendingEditState : EditorState :=
  { initState with
    conversationState := Phase.get_prompt,
    history := [⟨0, "blob:0"⟩],
    uploading := true,
    nextUrlId := 1 }

/-- Upload, one successful edit, then the user says "done" in review. -/
def doneLockstepTrace : List Event :=
  [Event.upload 0, Event.input "trim the start" (EditOutcome.ok 1),
   Event.input "done" (EditOutcome.ok 2)]

/-- Upload, one successful edit: leaves the session in `review`. -/
def reviewTrace : List Event :=
  [Event.upload 0, Event.input "trim the start" (EditOutcome.ok 1)]

/-- Upload, successful edit, then "done": two entries leave the history. -/
def doneResetTrace : List Event :=
  [Event.upload 0, Event.input "trim the start" (EditOutcome.ok 1),
   Event.input "done" (EditOutcome.ok 2)]

/-- Two consecutive uploads: the second replaces the first history entry. -/
def reuploadTrace : List Event :=
  [Event.upload 0, Event.upload 1]

/-- Upload followed by a successful song mix. -/
def mojibakeTrace : List Event :=
  [Event.upload 0, Event.addSong sahibaSong (MixOutcome.ok 1)]

/-! ## Proofs about the invariants -/

theorem lockStep_restore (st : EditorState) (h : lockStep st) :
    lockStep (restorePrevious st) := by
  unfold restorePrevious
  split
  · rename_i hlen
    left
    rcases h with h | ⟨h1, h2⟩
    · simp only [List.length_dropLast]
      omega
    · rw [h1] at hlen
      simp at hlen
  · exact h

theorem lockStep_submitEdit (st : EditorState) (p : String) (o : EditOutcome)
    (h : lockStep st) : lockStep (submitEdit st p o) := by
  unfold submitEdit
  split
  · exact h
  · rename_i c hc
    have hne : st.history ≠ [] := by
      intro h0
      rw [h0] at hc
      simp at hc
    cases o with
    | ok blob =>
        left
        rcases h with h | ⟨h1, h2⟩
        · simp only [List.length_append, List.length_cons, List.length_nil]
          omega
        · exact absurd h1 hne
    | httpError e => exact h
    | exn m => exact h

theorem lockStep_addSong (st : EditorState) (song : Song) (o : MixOutcome)
    (h : lockStep st) : lockStep (addSongToCurrentVideo st song o) := by
  unfold addSongToCurrentVideo
  split
  · exact h
  · rename_i c hc
    have hne : st.history ≠ [] := by
      intro h0
      rw [h0] at hc
      simp at hc
    cases o with
    | ok blob =>
        left
        rcases h with h | ⟨h1, h2⟩
        · simp only [List.length_append, List.length_cons, List.length_nil]
          omega
        · exact absurd h1 hne
    | httpError e s => exact h
    | exn m => exact h

theorem lockStep_handleUserInput (st : EditorState) (s : String) (o : EditOutcome)
    (h : lockStep st) : lockStep (handleUserInput st s o) := by
  unfold handleUserInput
  have h0 : lockStep { st with messages := addUserMessage st.messages s } := h
  cases hph : st.conversationState with
  | get_prompt =>
      simp only [hph]
      exact lockStep_submitEdit _ s o h0
  | review =>
      simp only [hph]
      split
      · exact lockStep_restore _ h0
      · split
        · exact h0
        · split
          · right; exact ⟨rfl, rfl⟩
          · exact h0
  | upload_video =>
      simp only [hph]
      exact h0

theorem lockStep_step (st : EditorState) (e : Event) (h : lockStep st) :
    lockStep (step st e) := by
  cases e with
  | upload blob =>
      left
      simp [step, handleFileChange]
  | input s o => exact lockStep_handleUserInput st s o h
  | addSong song o => exact lockStep_addSong st song o h
  | restoreClick => exact lockStep_restore st h

theorem lockStep_foldl (es : List Event) (st : EditorState) (h : lockStep st) :
    lockStep (es.foldl step st) := by
  induction es generalizing st with
  | nil => exact h
  | cons e rest ih => exact ih (step st e) (lockStep_step st e h)

/-- Every reachable state satisfies the lock-step invariant. -/
theorem lockStep_run (es : List Event) : lockStep (run es) :=
  lockStep_foldl es initState (Or.inr ⟨rfl, rfl⟩)

theorem phaseLB_restore (st : EditorState) (h : phaseHistoryLB st) :
    phaseHistoryLB (restorePrevious st) := by
  unfold restorePrevious
  split
  · rename_i hlen
    refine ⟨fun hc => ?_, fun _ => ?_⟩
    · simp at hc
    · simp only [List.length_dropLast]
      omega
  · exact h

theorem phaseLB_submitEdit (st : EditorState) (p : String) (o : EditOutcome)
    (h : phaseHistoryLB st) : phaseHistoryLB (submitEdit st p o) := by
  unfold submitEdit
  split
  · exact h
  · rename_i c hc
    have h1 : 1 ≤ st.history.length := by
      rcases List.getLast?_eq_some_iff.mp hc with ⟨ys, hys⟩
      rw [hys]
      simp
    cases o with
    | ok blob =>
        refine ⟨fun _ => ?_, fun hgp => ?_⟩
        · simp only [List.length_append, List.length_cons, List.length_nil]
          omega
        · simp at hgp
    | httpError e => exact h
    | exn m => exact h

theorem phaseLB_addSong (st : EditorState) (song : Song) (o : MixOutcome)
    (h : phaseHistoryLB st) : phaseHistoryLB (addSongToCurrentVideo st song o) := by
  unfold addSongToCurrentVideo
  split
  · exact h
  · rename_i c hc
    have h1 : 1 ≤ st.history.length := by
      rcases List.getLast?_eq_some_iff.mp hc with ⟨ys, hys⟩
      rw [hys]
      simp
    cases o with
    | ok blob =>
        refine ⟨fun _ => ?_, fun hgp => ?_⟩
        · simp only [List.length_append, List.length_cons, List.length_nil]
          omega
        · simp at hgp
    | httpError e s => exact h
    | exn m => exact h

theorem phaseLB_handleUserInput (st : EditorState) (s : String) (o : EditOutcome)
    (h : phaseHistoryLB st) : phaseHistoryLB (handleUserInput st s o) := by
  unfold handleUserInput
  have h0 : phaseHistoryLB { st with messages := addUserMessage st.messages s } := h
  cases hph : st.conversationState with
  | get_prompt =>
      simp only [hph]
      rw [hph] at h0
      exact phaseLB_submitEdit _ s o h0
  | review =>
      simp only [hph]
      rw [hph] at h0
      split
      · exact phaseLB_restore _ h0
      · split
        · refine ⟨fun hc => ?_, fun _ => ?_⟩
          · simp at hc
          · exact Nat.le_of_succ_le (h.1 hph)
        · split
          · refine ⟨fun hc => ?_, fun hc => ?_⟩
            · simp at hc
            · simp at hc
          · refine ⟨fun _ => h.1 hph, fun hc => ?_⟩
            · simp at hc
  | upload_video =>
      simp only [hph]
      refine ⟨fun hc => ?_, fun hc => ?_⟩
      · simp at hc
      · simp at hc

theorem phaseLB_step (st : EditorState) (e : Event) (h : phaseHistoryLB st) :
    phaseHistoryLB (step st e) := by
  cases e with
  | upload blob =>
      refine ⟨fun hc => ?_, fun _ => ?_⟩
      · simp [step, handleFileChange] at hc
      · simp [step, handleFileChange]
  | input s o => exact phaseLB_handleUserInput st s o h
  | addSong song o => exact phaseLB_addSong st song o h
  | restoreClick => exact phaseLB_restore st h

theorem phaseLB_foldl (es : List Event) (st : EditorState) (h : phaseHistoryLB st) :
    phaseHistoryLB (es.foldl step st) := by
  induction es generalizing st with
  | nil => exact h
  | cons e rest ih => exact ih (step st e) (phaseLB_step st e h)

/-- Every reachable state satisfies the phase lower bounds. -/
theorem phaseLB_run (es : List Event) : phaseHistoryLB (run es) :=
  phaseLB_foldl es initState ⟨fun hc => by simp [initState] at hc, fun hc => by simp [initState] at hc⟩

/-! ## Helper lemma for the review classification -/

theorem restore_pops (st : EditorState) (hlen : 1 < st.history.length) :
    (restorePrevious st).conversationState = Phase.get_prompt ∧
    (restorePrevious st).history = st.history.dropLast ∧
    (restorePrevious st).promptHistory = st.promptHistory.dropLast := by
  unfold restorePrevious
  rw [if_pos hlen]
  exact ⟨rfl, rfl, rfl⟩

/-! ## Claim checks -/

/-- C1, counterexample: after upload → successful edit → "done", both stacks are
empty, so `len(PromptLedger) = len(VersionHistory) - 1` fails (`0 ≠ -1`): the
stated invariant does not survive the session reset via "done". -/
theorem lockstep_fails_after_done :
    ¬ (((run doneLockstepTrace).promptHistory.length : Int) =
        ((run doneLockstepTrace).history.length : Int) - 1) := by
  decide

/-- C1, amended: after every sequence of session operations, either
`len(PromptLedger) = len(VersionHistory) - 1` holds, or the session has been
reset and both VersionHistory and PromptLedger are empty. -/
theorem lockstep_or_both_empty (es : List Event) :
    ((run es).promptHistory.length : Int) = ((run es).history.length : Int) - 1 ∨
      ((run es).history = [] ∧ (run es).promptHistory = []) := by
  rcases lockStep_run es with h | h
  · left
    omega
  · right
    exact h

/-- C2: in any reachable `review` state, input is classified by case-insensitive
substring matching in priority order: "restore" pops one entry from each stack
and moves to `get_prompt`; else any of "edit"/"change"/"more"/"yes" moves to
`get_prompt` with no history change; else "done"/"no" moves to `upload_video`
with history, ledger and transcript emptied; anything else re-prompts, leaves
the phase at `review` and mutates no history. -/
theorem review_input_classified (es : List Event) (s : String) (o : EditOutcome)
    (hr : (run es).conversationState = Phase.review) :
    (strIncludes (strToLower s) "restore" = true →
        (step (run es) (Event.input s o)).conversationState = Phase.get_prompt ∧
        (step (run es) (Event.input s o)).history = (run es).history.dropLast ∧
        (step (run es) (Event.input s o)).promptHistory = (run es).promptHistory.dropLast) ∧
    (strIncludes (strToLower s) "restore" = false ∧
        (strIncludes (strToLower s) "edit" || strIncludes (strToLower s) "change" ||
          strIncludes (strToLower s) "more" || strIncludes (strToLower s) "yes") = true →
        (step (run es) (Event.input s o)).conversationState = Phase.get_prompt ∧
        (step (run es) (Event.input s o)).history = (run es).history ∧
        (step (run es) (Event.input s o)).promptHistory = (run es).promptHistory) ∧
    (strIncludes (strToLower s) "restore" = false ∧
        (strIncludes (strToLower s) "edit" || strIncludes (strToLower s) "change" ||
          strIncludes (strToLower s) "more" || strIncludes (strToLower s) "yes") = false ∧
        (strIncludes (strToLower s) "done" || strIncludes (strToLower s) "no") = true →
        (step (run es) (Event.input s o)).conversationState = Phase.upload_video ∧
        (step (run es) (Event.input s o)).history = [] ∧
        (step (run es) (Event.input s o)).promptHistory = [] ∧
        (step (run es) (Event.input s o)).messages = []) ∧
    (strIncludes (strToLower s) "restore" = false ∧
        (strIncludes (strToLower s) "edit" || strIncludes (strToLower s) "change" ||
          strIncludes (strToLower s) "more" || strIncludes (strToLower s) "yes") = false ∧
        (strIncludes (strToLower s) "done" || strIncludes (strToLower s) "no") = false →
        (step (run es) (Event.input s o)).conversationState = Phase.review ∧
        (step (run es) (Event.input s o)).history = (run es).history ∧
        (step (run es) (Event.input s o)).promptHistory = (run es).promptHistory ∧
        (step (run es) (Event.input s o)).messages =
          addAIMessageList (addUserMessage (run es).messages s)
            "Please specify: more edits, restore previous version, or done?") := by
  have hlen : 2 ≤ (run es).history.length := (phaseLB_run es).1 hr
  refine ⟨fun h1 => ?_, fun h12 => ?_, fun h123 => ?_, fun h123 => ?_⟩
  · have hstep : step (run es) (Event.input s o) =
        restorePrevious { run es with messages := addUserMessage (run es).messages s } := by
      simp [step, handleUserInput, hr, h1]
    rw [hstep]
    exact restore_pops _ hlen
  · obtain ⟨h1, h2⟩ := h12
    simp [step, handleUserInput, hr, h1, h2]
  · obtain ⟨h1, h2, h3⟩ := h123
    simp [step, handleUserInput, hr, h1, h2, h3]
  · obtain ⟨h1, h2, h3⟩ := h123
    simp [step, handleUserInput, hr, h1, h2, h3]

/-- C2, witness: after upload and one successful edit, "please restore that"
restores and reaches `get_prompt`, "maybe" leaves the phase at `review`, and
"done" empties the history. -/
theorem review_input_classified_witness :
    ((step (run reviewTrace)
        (Event.input "please restore that" (EditOutcome.httpError none))).conversationState =
      Phase.get_prompt) ∧
    ((step (run reviewTrace)
        (Event.input "maybe" (EditOutcome.httpError none))).conversationState = Phase.review) ∧
    ((step (run reviewTrace)
        (Event.input "done" (EditOutcome.httpError none))).history = []) :=
  ⟨((review_input_classified reviewTrace "please restore that" (EditOutcome.httpError none)
      (by decide)).1 (by decide)).1,
    ((review_input_classified reviewTrace "maybe" (EditOutcome.httpError none)
      (by decide)).2.2.2 (by decide)).1,
    ((review_input_classified reviewTrace "done" (EditOutcome.httpError none)
      (by decide)).2.2.1 (by decide)).2.1⟩

/-- C3: the code does not implement the claimed guard.  In a state where the
PendingOperation flag is set (an edit in flight), `submitEdit` still builds and
dispatches an edit request, and the SongsSheet Add click (disabled only by its
local `addingId`, not by `uploading`) still dispatches a mix request; in
general both dispatch functions are independent of the `uploading` flag. -/
theorem dispatch_ignores_pending_flag :
    pendingEditState.uploading = true ∧
    editRequestOf pendingEditState "also add a caption" = some ⟨0, "also add a caption"⟩ ∧
    (songsSheetAddClick none pendingEditState sahibaSong (MixOutcome.ok 1)).2 =
      some ⟨0, sahibaSong.public_url⟩ ∧
    (∀ (st : EditorState) (p : String),
        editRequestOf { st with uploading := true } p =
          editRequestOf { st with uploading := false } p) ∧
    (∀ (st : EditorState) (song : Song),
        mixRequestOf { st with uploading := true } song =
          mixRequestOf { st with uploading := false } song) := by
  refine ⟨rfl, by decide, by decide, fun st p => rfl, fun st song => rfl⟩

/-- C4: whenever a current version exists (so the dispatch happens), the
`uploading` flag is false after `submitEdit` and after `addSongToCurrentVideo`
resolve, for every outcome — success, non-ok status, or exception. -/
theorem pending_flag_cleared_on_resolution (st : EditorState) (c : HistoryEntry)
    (p : String) (song : Song) (hc : st.history.getLast? = some c) :
    (∀ o : EditOutcome, (submitEdit st p o).uploading = false) ∧
    (∀ o : MixOutcome, (addSongToCurrentVideo st song o).uploading = false) := by
  constructor
  · intro o
    unfold submitEdit
    rw [hc]
    cases o <;> rfl
  · intro o
    unfold addSongToCurrentVideo
    rw [hc]
    cases o <;> rfl

/-- C4, witness: the flag is clear after a simulated network failure of an edit
and after a simulated 500 status of a mix. -/
theorem pending_flag_cleared_on_resolution_witness :
    (submitEdit demoState "crop the intro" (EditOutcome.exn "Failed to fetch")).uploading =
      false ∧
    (addSongToCurrentVideo demoState sahibaSong (MixOutcome.httpError none 500)).uploading =
      false :=
  ⟨(pending_flag_cleared_on_resolution demoState ⟨0, "blob:0"⟩ "crop the intro" sahibaSong
      rfl).1 (EditOutcome.exn "Failed to fetch"),
    (pending_flag_cleared_on_resolution demoState ⟨0, "blob:0"⟩ "crop the intro" sahibaSong
      rfl).2 (MixOutcome.httpError none 500)⟩

/-- C5: a failing edit or mix leaves history, ledger and phase unchanged and
surfaces an advisory error message; a successful one pushes exactly one history
entry and appends exactly one ledger entry, together. -/
theorem dispatch_failure_atomicity (st : EditorState) (c : HistoryEntry)
    (p : String) (song : Song) (hc : st.history.getLast? = some c) :
    (∀ errField : Option String,
        (submitEdit st p (EditOutcome.httpError errField)).history = st.history ∧
        (submitEdit st p (EditOutcome.httpError errField)).promptHistory = st.promptHistory ∧
        (submitEdit st p (EditOutcome.httpError errField)).conversationState =
          st.conversationState ∧
        (submitEdit st p (EditOutcome.httpError errField)).error =
          some (jsOr errField "Processing failed")) ∧
    (∀ m : String,
        (submitEdit st p (EditOutcome.exn m)).history = st.history ∧
        (submitEdit st p (EditOutcome.exn m)).promptHistory = st.promptHistory ∧
        (submitEdit st p (EditOutcome.exn m)).conversationState = st.conversationState ∧
        (submitEdit st p (EditOutcome.exn m)).error = some m) ∧
    (∀ b : Nat,
        (submitEdit st p (EditOutcome.ok b)).history =
          st.history ++ [⟨b, mkObjectURL st.nextUrlId⟩] ∧
        (submitEdit st p (EditOutcome.ok b)).promptHistory = st.promptHistory ++ [p]) ∧
    (∀ (errField : Option String) (status : Nat),
        (addSongToCurrentVideo st song (MixOutcome.httpError errField status)).history =
          st.history ∧
        (addSongToCurrentVideo st song (MixOutcome.httpError errField status)).promptHistory =
          st.promptHistory ∧
        (addSongToCurrentVideo st song (MixOutcome.httpError errField status)).conversationState =
          st.conversationState ∧
        (addSongToCurrentVideo st song (MixOutcome.httpError errField status)).error =
          some (jsOr errField ("Add music failed (" ++ toString status ++ ")"))) ∧
    (∀ m : String,
        (addSongToCurrentVideo st song (MixOutcome.exn m)).history = st.history ∧
        (addSongToCurrentVideo st song (MixOutcome.exn m)).promptHistory = st.promptHistory ∧
        (addSongToCurrentVideo st song (MixOutcome.exn m)).conversationState =
          st.conversationState ∧
        (addSongToCurrentVideo st song (MixOutcome.exn m)).error = some m) ∧
    (∀ b : Nat,
        (addSongToCurrentVideo st song (MixOutcome.ok b)).history =
          st.history ++ [⟨b, mkObjectURL st.nextUrlId⟩] ∧
        (addSongToCurrentVideo st song (MixOutcome.ok b)).promptHistory =
          st.promptHistory ++ [mixLedgerEntry song]) := by
  refine ⟨fun eF => ?_, fun m => ?_, fun b => ?_, fun eF status => ?_, fun m => ?_,
    fun b => ?_⟩ <;>
    · first
      | (unfold submitEdit; rw [hc]; exact ⟨rfl, rfl, rfl, rfl⟩)
      | (unfold submitEdit; rw [hc]; exact ⟨rfl, rfl⟩)
      | (unfold addSongToCurrentVideo; rw [hc]; exact ⟨rfl, rfl, rfl, rfl⟩)
      | (unfold addSongToCurrentVideo; rw [hc]; exact ⟨rfl, rfl⟩)

/-- C5, witness: a non-ok edit response with no `error` field leaves the state
untouched apart from the advisory "Processing failed" message. -/
theorem dispatch_failure_atomicity_witness :
    (submitEdit demoState "crop" (EditOutcome.httpError none)).history = demoState.history ∧
    (submitEdit demoState "crop" (EditOutcome.httpError none)).promptHistory =
      demoState.promptHistory ∧
    (submitEdit demoState "crop" (EditOutcome.httpError none)).conversationState =
      demoState.conversationState ∧
    (submitEdit demoState "crop" (EditOutcome.httpError none)).error =
      some (jsOr none "Processing failed") :=
  (dispatch_failure_atomicity demoState ⟨0, "blob:0"⟩ "crop" sahibaSong rfl).1 none

/-- C6: with more than one version, restore pops exactly one history entry
(revoking its object URL) and one ledger entry, emits the confirmation and
moves to `get_prompt`; with at most one version it is the identity. -/
theorem restore_behavior (st : EditorState) :
    (∀ c : HistoryEntry, st.history.getLast? = some c → 1 < st.history.length →
        (restorePrevious st).history = st.history.dropLast ∧
        (restorePrevious st).promptHistory = st.promptHistory.dropLast ∧
        (restorePrevious st).revokedUrls = st.revokedUrls ++ [c.url] ∧
        (restorePrevious st).conversationState = Phase.get_prompt ∧
        (restorePrevious st).messages =
          addAIMessageList st.messages
            "Previous version restored. What would you like to edit next?") ∧
    (st.history.length ≤ 1 → restorePrevious st = st) := by
  constructor
  · intro c hc hlen
    unfold restorePrevious
    rw [if_pos hlen, hc]
    exact ⟨rfl, rfl, rfl, rfl, rfl⟩
  · intro hle
    unfold restorePrevious
    rw [if_neg (by omega)]

/-- C6, witness: restoring from two versions pops one entry of each stack and
revokes "blob:1"; restoring the initial state is the identity. -/
theorem restore_behavior_witness :
    ((restorePrevious reviewDemoState).history = reviewDemoState.history.dropLast ∧
      (restorePrevious reviewDemoState).promptHistory =
        reviewDemoState.promptHistory.dropLast ∧
      (restorePrevious reviewDemoState).revokedUrls =
        reviewDemoState.revokedUrls ++ ["blob:1"] ∧
      (restorePrevious reviewDemoState).conversationState = Phase.get_prompt ∧
      (restorePrevious reviewDemoState).messages =
        addAIMessageList reviewDemoState.messages
          "Previous version restored. What would you like to edit next?") ∧
    restorePrevious initState = initState :=
  ⟨(restore_behavior reviewDemoState).1 ⟨1, "blob:1"⟩ rfl (by decide),
    (restore_behavior initState).2 (by decide)⟩

/-- C7: with a non-empty ledger the dispatched instruction is
`"Previous edits: " ++ join(ledger, ". ") ++ ". Additional edit: " ++ prompt`;
with an empty ledger the new instruction is sent verbatim. -/
theorem cumulative_prompt_construction (st : EditorState) (c : HistoryEntry) (p : String)
    (hc : st.history.getLast? = some c) :
    (st.promptHistory ≠ [] →
        editRequestOf st p = some ⟨c.blob,
          "Previous edits: " ++ String.intercalate ". " st.promptHistory ++
            ". Additional edit: " ++ p⟩) ∧
    (st.promptHistory = [] → editRequestOf st p = some ⟨c.blob, p⟩) := by
  constructor
  · intro hne
    unfold editRequestOf buildFullPrompt
    rw [hc, if_pos (List.length_pos.mpr hne)]
  · intro hemp
    unfold editRequestOf buildFullPrompt
    rw [hc, hemp]
    rfl

/-- C7, witness: ledger ["trim start", "add caption"] with new instruction
"speed up" dispatches exactly the string from the claim. -/
theorem cumulative_prompt_construction_witness :
    editRequestOf ledgerDemoState "speed up" =
      some ⟨0, "Previous edits: trim start. add caption. Additional edit: speed up"⟩ :=
  ((cumulative_prompt_construction ledgerDemoState ⟨0, "blob:0"⟩ "speed up" rfl).1
    (by decide)).trans (by decide)

/-- C8: two removal paths never release the entries' object URLs.  After
upload → edit → "done" the history is emptied, and after a second upload the
first entry is replaced, yet in both runs no URL was ever revoked. -/
theorem url_leak_on_reset_and_reupload :
    ((run doneResetTrace).history = [] ∧ (run doneResetTrace).revokedUrls = []) ∧
    ((run reuploadTrace).history = [⟨1, "blob:1"⟩] ∧ (run reuploadTrace).revokedUrls = []) := by
  decide

/-- C9, counterexample: a failing TTS request writes a user-facing error
message, contradicting the claim that synthesis failures are never surfaced. -/
theorem tts_failure_surfaced :
    (requestServerTTS ⟨none, []⟩ (TtsOutcome.failure none "Network Error")).1.error ≠
      none := by
  decide

/-- C9, amended: playback failures never touch the user-facing error field
(only the log), but a TTS request failure does surface the advisory message
"TTS request failed: ..."; neither touches history or phase, which live in
`EditorState`, disjoint from the TTS surface. -/
theorem tts_playback_surfacing :
    (∀ (s : TtsSurface) (b : Option String) (po : PlaybackOutcome),
        (playBase64Audio s b po).error = s.error) ∧
    (∀ (s : TtsSurface) (respErr : Option String) (msg : String),
        (requestServerTTS s (TtsOutcome.failure respErr msg)).1.error =
          some ("TTS request failed: " ++ jsOr respErr msg)) := by
  constructor
  · intro s b po
    cases b with
    | none => rfl
    | some v =>
        by_cases hv : v = ""
        · simp [playBase64Audio, hv]
        · cases po with
          | ok => simp [playBase64Audio, hv]
          | blocked m => simp [playBase64Audio, hv]
  · intro s respErr msg
    rfl

/-- C10: the ledger string appended by a successful mix of the song
"Sahiba" by "Aditya Rikhari" uses the literal byte sequence U+00E2 U+20AC
U+201D from the source ("â€”", a mojibake encoding of an em dash) and is NOT
the claimed string with an em dash (U+2014) between title and artist. -/
theorem mix_ledger_mojibake :
    (run mojibakeTrace).promptHistory = ["Added song: Sahiba â€” Aditya Rikhari"] ∧
    (run mojibakeTrace).promptHistory ≠ ["Added song: Sahiba — Aditya Rikhari"] := by
  decide

end Karigaar
